import Mathlib

/-!
Shallow embedding of the piper traversal-and-projection engine
(`src/piper/template_projector.py`) and the buffered document sink
(`src/piper/projection_consumers.py`), with theorems settling the
spec claims about them.

Python objects are modelled as follows: an entity class is a named
`PyClass`; an entity instance is its class plus a numeric identity; the
Jinja template engine is an external collaborator, so a `Template` is an
opaque identifier and rendering is an uninterpreted function carried by
the `World`; SQLAlchemy relationship introspection (`inspect(cls)
.relationships.items()`) and attribute access (`getattr`) are likewise
carried by the `World`. Exceptions become `Except` results.
-/

namespace Piper

/-- A Python class object (`rel.mapper.class_`, `obj.__class__`), identified
by its `__name__`. -/
structure PyClass where
  name : String
deriving DecidableEq

/-- An entity instance: one row of an entity class.  The `iid` field is the
object identity; projection never reads anything else directly — fields are
reached through the `World`'s `getattr` functions. -/
structure Inst where
  cls : PyClass
  iid : Nat
deriving DecidableEq

/-- An opaque Jinja template object (the template engine is an external
collaborator; rendering is interpreted by the `World`). -/
structure Template where
  tid : Nat
deriving DecidableEq

/-- A Python value as far as the dictionary-membership test in
`process_study` is concerned: the keys of `self.templates` are `str`
class names, while `related_class` is a class object.  Values built from
different constructors are never equal, exactly as a Python `str` never
compares equal to a `type`. -/
inductive PyVal where
  | str : String → PyVal
  | cls : PyClass → PyVal
deriving DecidableEq

/-- One relationship edge as introspected from the model: the target class
(`rel.mapper.class_`) and the `rel.uselist` collection tag. -/
structure Relationship where
  target : PyClass
  uselist : Bool
deriving DecidableEq

/-- The external collaborators: relationship introspection, attribute
access (scalar and collection), and the template engine's render. -/
structure World where
  rels : PyClass → List (String × Relationship)
  attr1 : Inst → String → Inst
  attrN : Inst → String → List Inst
  render : Template → List (String × Inst) → String

/-- Python `in` on a dictionary: the candidate is compared against each key. -/
def pyDictContains (keys : List PyVal) (x : PyVal) : Bool :=
  keys.any (fun k => decide (x = k))

/-- Association-list lookup, modelling Python `dict` indexing by string key. -/
def lookupStr {α : Type} : List (String × α) → String → Option α
  | [], _ => none
  | kv :: rest, k => if kv.1 = k then some kv.2 else lookupStr rest k

/-- Insertion into a keyword-argument dictionary: a repeated key overwrites
the value in place (Python `dict` semantics), a fresh key is appended. -/
def dictInsert (d : List (String × Inst)) (k : String) (v : Inst) :
    List (String × Inst) :=
  if d.any (fun kv => decide (kv.1 = k)) then
    d.map (fun kv => if kv.1 = k then (k, v) else kv)
  else d ++ [(k, v)]

/-- The dictionary built by a Python `**{...}` literal, keys inserted in
written order. -/
def mkDict (kvs : List (String × Inst)) : List (String × Inst) :=
  kvs.foldl (fun d kv => dictInsert d kv.1 kv.2) []

/-- Modelled from the external `camel_converter.to_snake` collaborator (the
fixed name-casing transform of the spec): the first character is lowered,
and every later upper-case character becomes an underscore followed by its
lower-case form, e.g. `StudySubject` becomes `study_subject`. -/
def toSnake (s : String) : String :=
  match s.data with
  | [] => ""
  | c :: rest =>
    ⟨c.toLower ::
      rest.foldr
        (fun ch acc =>
          if ch.isUpper then '_' :: ch.toLower :: acc else ch :: acc) []⟩

/-- The resource bucket map (`DefaultDict[str, list[str]]`): every key is
bound, missing keys to the empty sequence. -/
def Resources : Type := String → List String

/-- Append one rendered document to the bucket under `k`. -/
def appendRes (res : Resources) (k : String) (doc : String) : Resources :=
  fun key => if key = k then res key ++ [doc] else res key

/-- The bucket map with every bucket empty. -/
def emptyRes : Resources := fun _ => []

/-- The exceptions the projector can raise: `KeyError` from
`self.templates[name]` in `process_study`, the `ValueError` that
`render_object` raises when no template matches, and the
`AttributeError` that `template.render_object(...)` would raise in the
`process_study` loop (a Jinja template has no such attribute). -/
inductive PiperError where
  | keyError : String → PiperError
  | missingTemplate : String → PiperError
  | attributeError : PiperError
deriving DecidableEq

/-- One entry of the `model_helpers` configuration mapping: the anchor
role's model class name and its configured relationship-field blacklist. -/
structure ModelHelper where
  classname : String
  blacklist : List String
deriving DecidableEq

/-- The `TemplateProjector` state after construction: the `model_helpers`
mapping (keyed by anchor role) and the loaded `templates` mapping (keyed
by exact class name). -/
structure TemplateProjector where
  model_helpers : List (String × ModelHelper)
  templates : List (String × Template)
deriving DecidableEq

/-- `TemplateProjector.black_list`: the keys of `model_helpers` plus, when
the component is itself a `model_helpers` key, that component's configured
blacklist (Python builds a `set`; only membership is ever consulted). -/
def TemplateProjector.black_list (tp : TemplateProjector)
    (model_component : String) : List String :=
  match lookupStr tp.model_helpers model_component with
  | some h => tp.model_helpers.map Prod.fst ++ h.blacklist
  | none => tp.model_helpers.map Prod.fst

/-- `TemplateProjector.render_object`: resolve the class name (the explicit
argument, else the object's own class), find the matching template
(raising `ValueError` when absent), derive the variable names with
`to_snake`, and render with bindings for the object, the study and, when
present, the subject. -/
def TemplateProjector.render_object (tp : TemplateProjector) (w : World)
    (obj : Inst) (study : Inst) (study_subject : Option Inst)
    (class_name_arg : Option String) : Except PiperError String :=
  let class_name := class_name_arg.getD obj.cls.name
  match lookupStr tp.templates class_name with
  | none => .error (.missingTemplate class_name)
  | some template =>
    let varname := toSnake class_name
    let study_varname := toSnake study.cls.name
    match study_subject with
    | some subj =>
      let subject_varname := toSnake subj.cls.name
      .ok (w.render template
        (mkDict [(varname, obj), (study_varname, study),
                 (subject_varname, subj)]))
    | none =>
      .ok (w.render template (mkDict [(varname, obj), (study_varname, study)]))

/-- The relationship loop of `process_study`, transcribed exactly: the
membership test compares the related class object against the string keys
of `templates`; a blacklisted field name is skipped; a singular edge only
builds the unused `items` list; a collection edge iterates the members and
calls `template.render_object(...)`, an attribute a Jinja template does not
have, so a non-empty collection raises `AttributeError`. -/
def processStudyEdges (w : World) (tp : TemplateProjector) (study : Inst) :
    List (String × Relationship) → Resources → Except PiperError Resources
  | [], resources => .ok resources
  | (varname, rel) :: rest, resources =>
    if pyDictContains (tp.templates.map (fun kv => PyVal.str kv.1))
        (PyVal.cls rel.target) then
      if (tp.black_list "study").contains varname then
        processStudyEdges w tp study rest resources
      else
        if rel.uselist = false then
          processStudyEdges w tp study rest resources
        else
          match w.attrN study varname with
          | [] => processStudyEdges w tp study rest resources
          | _ :: _ => .error .attributeError
    else
      processStudyEdges w tp study rest resources

/-- `TemplateProjector.process_study`: look the study's class up in
`templates` (a bare dict index, so absence raises `KeyError`), append the
study's own render under its snake-cased class name, then run the
relationship loop. -/
def TemplateProjector.process_study (tp : TemplateProjector) (w : World)
    (study : Inst) (resources : Resources) : Except PiperError Resources :=
  let study_classname := study.cls.name
  let study_varname := toSnake study_classname
  match lookupStr tp.templates study_classname with
  | none => .error (.keyError study_classname)
  | some template =>
    processStudyEdges w tp study (w.rels study.cls)
      (appendRes resources study_varname
        (w.render template (mkDict [(study_varname, study)])))

/-- The inner loop of a collection edge in `process_subject`: render each
member through `render_object` (study and subject anchors bound) and append
it to the bucket under `key`. -/
def appendRendered (w : World) (tp : TemplateProjector)
    (subject study : Inst) (key cname : String) :
    List Inst → Resources → Except PiperError Resources
  | [], resources => .ok resources
  | item :: rest, resources =>
    match tp.render_object w item study (some subject) (some cname) with
    | .error e => .error e
    | .ok doc =>
      appendRendered w tp subject study key cname rest
        (appendRes resources key doc)

/-- The relationship loop of `process_subject`: an edge whose target class
name has a template is traversed (no blacklist is consulted); collection
edges render every member, singular edges render the one related instance;
every document lands in the bucket keyed by the snake-cased target class
name. -/
def processSubjectEdges (w : World) (tp : TemplateProjector)
    (subject study : Inst) :
    List (String × Relationship) → Resources → Except PiperError Resources
  | [], resources => .ok resources
  | (varname, rel) :: rest, resources =>
    if (lookupStr tp.templates rel.target.name).isSome then
      if rel.uselist then
        match appendRendered w tp subject study (toSnake rel.target.name)
            rel.target.name (w.attrN subject varname) resources with
        | .error e => .error e
        | .ok res' => processSubjectEdges w tp subject study rest res'
      else
        match tp.render_object w (w.attr1 subject varname) study
            (some subject) (some rel.target.name) with
        | .error e => .error e
        | .ok doc =>
          processSubjectEdges w tp subject study rest
            (appendRes resources (toSnake rel.target.name) doc)
    else
      processSubjectEdges w tp subject study rest resources

/-- `TemplateProjector.process_subject`: append the subject's own render
(study anchor, no subject anchor) under its snake-cased class name, then
run the relationship loop. -/
def TemplateProjector.process_subject (tp : TemplateProjector) (w : World)
    (subject study : Inst) (resources : Resources) :
    Except PiperError Resources :=
  match tp.render_object w subject study none none with
  | .error e => .error e
  | .ok doc =>
    processSubjectEdges w tp subject study (w.rels subject.cls)
      (appendRes resources (toSnake subject.cls.name) doc)

/-- The rendered text of one related instance in subject mode: bindings
carry the instance under the snake-cased target class name, the study and
the subject under their snake-cased class names. -/
def edgeItemDoc (w : World) (subject study item : Inst) (cname : String)
    (template : Template) : String :=
  w.render template
    (mkDict [(toSnake cname, item), (toSnake study.cls.name, study),
             (toSnake subject.cls.name, subject)])

/-- The documents one relationship edge contributes in subject mode: none
when the target class has no template, otherwise one per related instance
(all members of a collection edge, the single instance of a singular one). -/
def subjectEdgeDocs (w : World) (tp : TemplateProjector)
    (subject study : Inst) (edge : String × Relationship) : List String :=
  match lookupStr tp.templates edge.2.target.name with
  | none => []
  | some template =>
    (if edge.2.uselist then w.attrN subject edge.1
     else [w.attr1 subject edge.1]).map
      (fun item => edgeItemDoc w subject study item edge.2.target.name template)

/-- The documents the subject-mode relationship loop appends to the bucket
`k`: the contributions, in edge order, of the edges keyed (by snake-cased
target class name) at `k`. -/
def edgeContrib (w : World) (tp : TemplateProjector) (subject study : Inst) :
    List (String × Relationship) → String → List String
  | [], _ => []
  | e :: rest, k =>
    (if toSnake e.2.target.name = k then subjectEdgeDocs w tp subject study e
     else []) ++ edgeContrib w tp subject study rest k

/-! The buffered document sink (`DewrangleJSON`). -/

/-- The only I/O failure the model distinguishes: a write on a file handle
that has already been closed (Python raises `ValueError`). -/
inductive SinkError where
  | closedFile
deriving DecidableEq

/-- A file handle: the text written so far and whether `close()` has been
called on it. -/
structure FileState where
  contents : String
  closed : Bool
deriving DecidableEq

/-- The `DewrangleJSON` sink state: destination name, the lazily created
file handle (`self.file`, `None` until the first flush), the configured
capacity and the in-memory buffer (`self.resources`). -/
structure DewrangleJSON where
  filename : String
  file : Option FileState
  buffersize : Nat
  resources : List String
deriving DecidableEq

/-- `DewrangleJSON.__init__`. -/
def DewrangleJSON.init (filename : String) (buffersize : Nat) :
    DewrangleJSON :=
  ⟨filename, none, buffersize, []⟩

/-- `DewrangleJSON.__enter__`: returns `self`, deliberately creating no
file. -/
def DewrangleJSON.enter (s : DewrangleJSON) : DewrangleJSON := s

/-- The comma-joined array-element text of a buffer. -/
def joinComma (docs : List String) : String := String.intercalate ",\n" docs

/-- `DewrangleJSON._dump_buffer_to_file`: when no file exists yet, create it
and write the opening bracket with no leading comma; otherwise the first
write is the separating comma, which raises if the handle was closed; the
buffer is cleared afterwards.  An empty buffer writes nothing. -/
def DewrangleJSON.dumpBufferToFile (s : DewrangleJSON) :
    Except SinkError DewrangleJSON :=
  match s.file with
  | none =>
    .ok ⟨s.filename,
         some ⟨"[\n" ++ (if s.resources.length > 0 then joinComma s.resources
                         else ""), false⟩,
         s.buffersize, []⟩
  | some f =>
    if s.resources.length > 0 then
      if f.closed then .error .closedFile
      else
        .ok ⟨s.filename,
             some ⟨f.contents ++ ",\n" ++ joinComma s.resources, false⟩,
             s.buffersize, []⟩
    else .ok ⟨s.filename, some f, s.buffersize, []⟩

/-- `DewrangleJSON.__call__`: buffer the document, and flush once the
buffer length has reached the capacity. -/
def DewrangleJSON.call (s : DewrangleJSON) (resource : String) :
    Except SinkError DewrangleJSON :=
  let s' : DewrangleJSON :=
    ⟨s.filename, s.file, s.buffersize, s.resources ++ [resource]⟩
  if s'.resources.length ≥ s'.buffersize then s'.dumpBufferToFile else .ok s'

/-- `DewrangleJSON.__exit__`: when a file handle exists, write the closing
bracket (raising if the handle is already closed) and close the handle;
the buffer is not flushed and `self.file` is not reset. -/
def DewrangleJSON.exit (s : DewrangleJSON) : Except SinkError DewrangleJSON :=
  match s.file with
  | none => .ok s
  | some f =>
    if f.closed then .error .closedFile
    else
      .ok ⟨s.filename, some ⟨f.contents ++ "\n]", true⟩, s.buffersize,
           s.resources⟩

/-- Feed a list of documents to the sink one at a time. -/
def acceptAll : DewrangleJSON → List String → Except SinkError DewrangleJSON
  | s, [] => .ok s
  | s, d :: rest =>
    match s.call d with
    | .error e => .error e
    | .ok s' => acceptAll s' rest

/-- Open a sink, accept a sequence of documents, and close it. -/
def runSink (filename : String) (cap : Nat) (docs : List String) :
    Except SinkError DewrangleJSON :=
  match acceptAll ((DewrangleJSON.init filename cap).enter) docs with
  | .error e => .error e
  | .ok s => s.exit

/-- Split an element-list text on the `,\n` separator the sink writes. -/
def splitElems : List Char → List Char → List String
  | [], acc => [⟨acc.reverse⟩]
  | ',' :: '\n' :: rest, acc => ⟨acc.reverse⟩ :: splitElems rest []
  | c :: rest, acc => splitElems rest (c :: acc)

/-- Parse the sink's output as the array it is meant to denote: the text
between the opening `[` line and the closing `]` line, split on the
element separator. -/
def parseArray (content : String) : Option (List String) :=
  match content.data with
  | '[' :: '\n' :: rest =>
    match rest.reverse with
    | ']' :: '\n' :: mid => some (splitElems mid.reverse [])
    | _ => none
  | _ => none

/-! Concrete entity classes, instances, projectors and worlds used by the
evaluation theorems and the witnesses.  They realize the scenarios of the
spec: a study with a `groups` collection edge, a `site` singular edge and a
blacklisted `audit_log` edge, and a subject with an `observations`
collection edge to three instances. -/

def clsStudy : PyClass := ⟨"Study"⟩

def clsGroup : PyClass := ⟨"Group"⟩

def clsSite : PyClass := ⟨"Site"⟩

def clsAuditLog : PyClass := ⟨"AuditLog"⟩

def clsSubject : PyClass := ⟨"Subject"⟩

def clsObservation : PyClass := ⟨"Observation"⟩

def instS1 : Inst := ⟨clsStudy, 0⟩

def instG1 : Inst := ⟨clsGroup, 1⟩

def instG2 : Inst := ⟨clsGroup, 2⟩

def instSite : Inst := ⟨clsSite, 3⟩

def instP1 : Inst := ⟨clsSubject, 5⟩

def instO1 : Inst := ⟨clsObservation, 6⟩

def instO2 : Inst := ⟨clsObservation, 7⟩

def instO3 : Inst := ⟨clsObservation, 8⟩

def tpC1 : TemplateProjector :=
  ⟨[("study", ⟨"Study", ["audit_log"]⟩), ("subject", ⟨"Subject", []⟩)],
   [("Study", ⟨0⟩), ("Group", ⟨1⟩), ("Site", ⟨2⟩)]⟩

def wC1 : World :=
  ⟨fun c =>
     if c = clsStudy then
       [("groups", ⟨clsGroup, true⟩), ("site", ⟨clsSite, false⟩),
        ("audit_log", ⟨clsAuditLog, true⟩)]
     else [],
   fun _ _ => instSite,
   fun i f => if i = instS1 ∧ f = "groups" then [instG1, instG2] else [],
   fun t _ => "doc" ++ Nat.repr t.tid⟩

def tpC2 : TemplateProjector :=
  ⟨[("study", ⟨"Study", []⟩), ("subject", ⟨"Subject", []⟩)],
   [("Subject", ⟨10⟩), ("Observation", ⟨11⟩)]⟩

def wC2 : World :=
  ⟨fun c =>
     if c = clsSubject then [("observations", ⟨clsObservation, true⟩)]
     else [],
   fun _ _ => instP1,
   fun i f =>
     if i = instP1 ∧ f = "observations" then [instO1, instO2, instO3]
     else [],
   fun t _ => "doc" ++ Nat.repr t.tid⟩

/-- A projector with no templates loaded at all. -/
def tpEmpty : TemplateProjector := ⟨[], []⟩

/-- The bucket map `process_study` produces for `instS1` under `tpC1`:
only the study's own document, under the bucket `study`. -/
def resC10 : Resources :=
  appendRes emptyRes (toSnake clsStudy.name)
    (wC1.render ⟨0⟩ (mkDict [(toSnake clsStudy.name, instS1)]))

/-- The sink state `runSink "out.json" 1 ["a"]` ends in: the file was
created by the automatic flush, the closing bracket written, the handle
closed, the buffer empty. -/
def sinkClosedCap1 : DewrangleJSON :=
  ⟨"out.json", some ⟨"[\na\n]", true⟩, 1, []⟩

/-- The sink state `runSink "o2.json" 2 ["a", "b"]` ends in. -/
def sinkClosedCap2 : DewrangleJSON :=
  ⟨"o2.json", some ⟨"[\na,\nb\n]", true⟩, 2, []⟩

/-! Helper lemmas about the projector. -/

/-- A class object is never a member of the string-keyed templates dict. -/
lemma lem_pyDictContains_cls (ts : List (String × Template)) (c : PyClass) :
    pyDictContains (ts.map (fun kv => PyVal.str kv.1)) (PyVal.cls c) = false := by
  induction ts with
  | nil => rfl
  | cons kv rest ih =>
    simp only [List.map_cons, pyDictContains, List.any_cons] at ih ⊢
    rw [ih, decide_eq_false (fun h => PyVal.noConfusion h)]
    rfl

/-- The relationship loop of `process_study` never changes the bucket map:
its template-membership test compares a class object against string keys
and therefore fails on every edge. -/
lemma lem_processStudyEdges_ok (w : World) (tp : TemplateProjector)
    (study : Inst) :
    ∀ (edges : List (String × Relationship)) (res : Resources),
      processStudyEdges w tp study edges res = .ok res := by
  intro edges
  induction edges with
  | nil => intro res; rfl
  | cons e rest ih =>
    intro res
    obtain ⟨varname, rel⟩ := e
    simp only [processStudyEdges, lem_pyDictContains_cls, Bool.false_eq_true,
      if_false]
    exact ih res

/-- Successful `process_study` appends exactly the study's own rendered
document, under the snake-cased study class name. -/
lemma lem_process_study_ok (w : World) (tp : TemplateProjector)
    (study : Inst) (res : Resources) (template : Template)
    (h : lookupStr tp.templates study.cls.name = some template) :
    tp.process_study w study res =
      .ok (appendRes res (toSnake study.cls.name)
        (w.render template (mkDict [(toSnake study.cls.name, study)]))) := by
  rw [TemplateProjector.process_study, h]
  exact lem_processStudyEdges_ok w tp study _ _

/-- `render_object` with an explicit class name and a subject anchor. -/
lemma lem_render_object_some (tp : TemplateProjector) (w : World)
    (obj study subj : Inst) (cname : String) (template : Template)
    (h : lookupStr tp.templates cname = some template) :
    tp.render_object w obj study (some subj) (some cname) =
      .ok (edgeItemDoc w subj study obj cname template) := by
  rw [TemplateProjector.render_object]
  simp [h, edgeItemDoc]

/-- `render_object` on an object itself, with no subject anchor and no
explicit class name. -/
lemma lem_render_object_self (tp : TemplateProjector) (w : World)
    (obj study : Inst) (template : Template)
    (h : lookupStr tp.templates obj.cls.name = some template) :
    tp.render_object w obj study none none =
      .ok (w.render template
        (mkDict [(toSnake obj.cls.name, obj),
                 (toSnake study.cls.name, study)])) := by
  rw [TemplateProjector.render_object]
  simp [h]

/-- `render_object` with no subject anchor and no explicit class name fails
when the object's class has no template. -/
lemma lem_render_object_none (tp : TemplateProjector) (w : World)
    (obj study : Inst)
    (h : lookupStr tp.templates obj.cls.name = none) :
    tp.render_object w obj study none none =
      .error (.missingTemplate obj.cls.name) := by
  rw [TemplateProjector.render_object]
  simp [h]

/-- The collection-edge inner loop appends, to the bucket under `key`, one
rendered document per item, in item order, and touches no other bucket. -/
lemma lem_appendRendered (w : World) (tp : TemplateProjector)
    (subject study : Inst) (key cname : String) (template : Template)
    (h : lookupStr tp.templates cname = some template) :
    ∀ (items : List Inst) (res : Resources),
      ∃ res',
        appendRendered w tp subject study key cname items res = .ok res' ∧
        ∀ k, res' k =
          if k = key then
            res k ++
              items.map (fun it => edgeItemDoc w subject study it cname template)
          else res k := by
  intro items
  induction items with
  | nil =>
    intro res
    refine ⟨res, rfl, ?_⟩
    intro k
    by_cases hk : k = key <;> simp [hk]
  | cons it rest ih =>
    intro res
    obtain ⟨res', heq, hpt⟩ :=
      ih (appendRes res key (edgeItemDoc w subject study it cname template))
    refine ⟨res', ?_, ?_⟩
    · simp only [appendRendered,
        lem_render_object_some tp w it study subject cname template h]
      exact heq
    · intro k
      rw [hpt k]
      by_cases hk : k = key <;>
        simp [appendRes, hk, List.append_assoc]

/-- The subject-mode relationship loop appends, to every bucket, exactly
the contributions described by `edgeContrib`, in edge order. -/
lemma lem_processSubjectEdges (w : World) (tp : TemplateProjector)
    (subject study : Inst) :
    ∀ (edges : List (String × Relationship)) (res : Resources),
      ∃ res',
        processSubjectEdges w tp subject study edges res = .ok res' ∧
        ∀ k, res' k = res k ++ edgeContrib w tp subject study edges k := by
  intro edges
  induction edges with
  | nil =>
    intro res
    refine ⟨res, rfl, ?_⟩
    intro k
    simp [edgeContrib]
  | cons e rest ih =>
    intro res
    obtain ⟨varname, rel⟩ := e
    cases hlook : lookupStr tp.templates rel.target.name with
    | none =>
      obtain ⟨res', heq, hpt⟩ := ih res
      refine ⟨res', ?_, ?_⟩
      · simp only [processSubjectEdges, hlook, Option.isSome_none,
          Bool.false_eq_true, if_false]
        exact heq
      · intro k
        rw [hpt k]
        simp [edgeContrib, subjectEdgeDocs, hlook]
    | some template =>
      cases hul : rel.uselist with
      | true =>
        obtain ⟨res₁, heq₁, hpt₁⟩ :=
          lem_appendRendered w tp subject study (toSnake rel.target.name)
            rel.target.name template hlook (w.attrN subject varname) res
        obtain ⟨res₂, heq₂, hpt₂⟩ := ih res₁
        refine ⟨res₂, ?_, ?_⟩
        · simp only [processSubjectEdges, hlook, Option.isSome_some, if_true,
            hul, heq₁]
          exact heq₂
        · intro k
          rw [hpt₂ k, hpt₁ k]
          by_cases hk : k = toSnake rel.target.name
          · simp [edgeContrib, subjectEdgeDocs, hlook, hul, hk,
              List.append_assoc]
          · have hk' : ¬toSnake rel.target.name = k := fun hx => hk hx.symm
            simp [edgeContrib, subjectEdgeDocs, hlook, hul, hk, hk']
      | false =>
        obtain ⟨res₂, heq₂, hpt₂⟩ :=
          ih (appendRes res (toSnake rel.target.name)
            (edgeItemDoc w subject study (w.attr1 subject varname)
              rel.target.name template))
        refine ⟨res₂, ?_, ?_⟩
        · simp only [processSubjectEdges, hlook, Option.isSome_some, if_true,
            hul, Bool.false_eq_true, if_false,
            lem_render_object_some tp w (w.attr1 subject varname) study
              subject rel.target.name template hlook]
          exact heq₂
        · intro k
          rw [hpt₂ k]
          by_cases hk : k = toSnake rel.target.name
          · simp [appendRes, edgeContrib, subjectEdgeDocs, hlook, hul, hk,
              List.append_assoc]
          · have hk' : ¬toSnake rel.target.name = k := fun hx => hk hx.symm
            simp [appendRes, edgeContrib, subjectEdgeDocs, hlook, hul, hk, hk']

/-! Claim theorems. -/

/-- C1: the claim says `process_study` appends, for every non-blacklisted
relationship edge with a templated target, one rendered document per
related instance under the edge's field name.  The code does not: its
template-membership test compares the related class object against the
string keys of the templates dict and always fails (and even past it, a
singular edge never iterates its `items`, and a collection edge would call
`template.render_object`, an attribute a Jinja template lacks).  Evaluated
at the spec's own scenario — study `S1` with collection edge `groups` to
the templated class `Group` (two members) and singular edge `site` to the
templated class `Site` — the buckets `groups` and `site` stay empty while
the study's own document is rendered. -/
theorem process_study_c1_relations_dropped :
    (tpC1.process_study wC1 instS1 emptyRes).map
        (fun res => (res "groups", res "site", res "study"))
      = .ok ([], [], ["doc0"]) := by
  rfl

/-- C2: for a subject whose class has a template, `process_subject` first
appends the subject's own render (study anchor bound, no subject anchor)
under the snake-cased subject class name, and then, for every relationship
edge whose target class has a template — no blacklist is consulted, the
`model_helpers` configuration being arbitrary here — appends one document
per related instance (every member of a collection edge, the single
instance of a singular edge) under the snake-cased target class name, each
rendered with bindings carrying the instance, the study and the subject
under their derived names (see `edgeContrib`, `subjectEdgeDocs` and
`edgeItemDoc`). -/
theorem process_subject_c2_templated_relations
    (w : World) (tp : TemplateProjector) (subject study : Inst)
    (res : Resources) (template : Template)
    (hT : lookupStr tp.templates subject.cls.name = some template) :
    ∃ res', tp.process_subject w subject study res = .ok res' ∧
      ∀ k, res' k =
        (if k = toSnake subject.cls.name
         then res k ++ [w.render template
            (mkDict [(toSnake subject.cls.name, subject),
                     (toSnake study.cls.name, study)])]
         else res k)
        ++ edgeContrib w tp subject study (w.rels subject.cls) k := by
  obtain ⟨res', heq, hpt⟩ := lem_processSubjectEdges w tp subject study
    (w.rels subject.cls)
    (appendRes res (toSnake subject.cls.name)
      (w.render template
        (mkDict [(toSnake subject.cls.name, subject),
                 (toSnake study.cls.name, study)])))
  refine ⟨res', ?_, ?_⟩
  · simp only [TemplateProjector.process_subject,
      lem_render_object_self tp w subject study template hT]
    exact heq
  · intro k
    rw [hpt k]
    by_cases hk : k = toSnake subject.cls.name <;>
      simp [appendRes, hk]

/-- C2 witness: the spec's scenario — subject `P1` of class `Subject` with
a collection edge `observations` to the templated class `Observation`
(three instances) under study `S1`. -/
theorem process_subject_c2_witness :
    ∃ res', tpC2.process_subject wC2 instP1 instS1 emptyRes = .ok res' ∧
      ∀ k, res' k =
        (if k = toSnake instP1.cls.name
         then emptyRes k ++ [wC2.render ⟨10⟩
            (mkDict [(toSnake instP1.cls.name, instP1),
                     (toSnake instS1.cls.name, instS1)])]
         else emptyRes k)
        ++ edgeContrib wC2 tpC2 instP1 instS1 (wC2.rels instP1.cls) k :=
  process_subject_c2_templated_relations wC2 tpC2 instP1 instS1 emptyRes
    ⟨10⟩ rfl

/-- C4: `process_study` for a study whose class name is absent from the
templates mapping fails (the bare dict index raises) before anything is
appended: the result is the error, not a partial bucket map. -/
theorem process_study_c4_missing_template_error
    (w : World) (tp : TemplateProjector) (study : Inst) (res : Resources)
    (h : lookupStr tp.templates study.cls.name = none) :
    tp.process_study w study res = .error (.keyError study.cls.name) := by
  rw [TemplateProjector.process_study, h]

/-- C4 witness: a projector with no templates rejects study `S1`. -/
theorem process_study_c4_witness :
    tpEmpty.process_study wC1 instS1 emptyRes
      = .error (.keyError "Study") :=
  process_study_c4_missing_template_error wC1 tpEmpty instS1 emptyRes rfl

/-- C5: the study blacklist contains every anchor-role name (every key of
`model_helpers`, in the deployed configuration `study` and `subject`) plus
the configured field names for the `study` role; and a successful
`process_study` appends nothing to any bucket named by a blacklisted field
(the only appended document is the study's own render, under the
snake-cased study class name). -/
theorem process_study_c5_blacklist_no_documents
    (w : World) (tp : TemplateProjector) (study : Inst) (res res' : Resources)
    (hrun : tp.process_study w study res = .ok res') :
    (∀ role ∈ tp.model_helpers.map Prod.fst, role ∈ tp.black_list "study") ∧
    (∀ mh, lookupStr tp.model_helpers "study" = some mh →
      ∀ f ∈ mh.blacklist, f ∈ tp.black_list "study") ∧
    (∀ f ∈ tp.black_list "study", f ≠ toSnake study.cls.name →
      res' f = res f) := by
  refine ⟨?_, ?_, ?_⟩
  · intro role hrole
    rw [TemplateProjector.black_list]
    cases lookupStr tp.model_helpers "study" with
    | none => exact hrole
    | some mh => exact List.mem_append_left _ hrole
  · intro mh hmh f hf
    rw [TemplateProjector.black_list, hmh]
    exact List.mem_append_right _ hf
  · intro f _ hne
    cases hT : lookupStr tp.templates study.cls.name with
    | none =>
      rw [TemplateProjector.process_study, hT] at hrun
      exact absurd hrun (by simp)
    | some template =>
      rw [lem_process_study_ok w tp study res template hT] at hrun
      injection hrun with h
      rw [← h, appendRes, if_neg hne]

/-- C5 witness: under `tpC1` the blacklist for the `study` role contains
the role names `study` and `subject` and the configured field `audit_log`,
and running `process_study` on `S1` leaves the `audit_log` bucket
untouched. -/
theorem process_study_c5_witness :
    ("study" ∈ tpC1.black_list "study" ∧
     "subject" ∈ tpC1.black_list "study" ∧
     "audit_log" ∈ tpC1.black_list "study") ∧
    resC10 "audit_log" = emptyRes "audit_log" := by
  have h := process_study_c5_blacklist_no_documents wC1 tpC1 instS1
    emptyRes resC10 rfl
  refine ⟨⟨?_, ?_, ?_⟩, ?_⟩
  · exact h.1 "study" (by decide)
  · exact h.1 "subject" (by decide)
  · exact h.2.1 ⟨"Study", ["audit_log"]⟩ rfl "audit_log" (by decide)
  · exact h.2.2 "audit_log"
      (h.2.1 ⟨"Study", ["audit_log"]⟩ rfl "audit_log" (by decide))
      (by decide)

/-- C10: `process_study` and `process_subject` are append-only on the
bucket map — on success, every bucket's prior document sequence is an
initial segment of its new sequence (nothing is removed, reordered or
modified). -/
theorem c10_bucket_append_only (w : World) (tp : TemplateProjector)
    (study subject : Inst) (res res₁ res₂ : Resources) :
    (tp.process_study w study res = .ok res₁ →
      ∀ k, ∃ t, res₁ k = res k ++ t) ∧
    (tp.process_subject w subject study res = .ok res₂ →
      ∀ k, ∃ t, res₂ k = res k ++ t) := by
  constructor
  · intro hrun k
    cases hT : lookupStr tp.templates study.cls.name with
    | none =>
      rw [TemplateProjector.process_study, hT] at hrun
      exact absurd hrun (by simp)
    | some template =>
      rw [lem_process_study_ok w tp study res template hT] at hrun
      injection hrun with h
      rw [← h, appendRes]
      by_cases hk : k = toSnake study.cls.name
      · rw [if_pos hk]
        exact ⟨_, rfl⟩
      · rw [if_neg hk]
        exact ⟨[], (List.append_nil _).symm⟩
  · intro hrun k
    cases hT : lookupStr tp.templates subject.cls.name with
    | none =>
      simp only [TemplateProjector.process_subject,
        lem_render_object_none tp w subject study hT] at hrun
      exact absurd hrun (by simp)
    | some template =>
      obtain ⟨res', heq, hpt⟩ := lem_processSubjectEdges w tp subject study
        (w.rels subject.cls)
        (appendRes res (toSnake subject.cls.name)
          (w.render template
            (mkDict [(toSnake subject.cls.name, subject),
                     (toSnake study.cls.name, study)])))
      simp only [TemplateProjector.process_subject,
        lem_render_object_self tp w subject study template hT, heq,
        Except.ok.injEq] at hrun
      rw [← hrun]
      have h2 := hpt k
      rw [appendRes] at h2
      by_cases hk : k = toSnake subject.cls.name
      · rw [if_pos hk] at h2
        exact ⟨_, h2.trans (List.append_assoc _ _ _)⟩
      · rw [if_neg hk] at h2
        exact ⟨_, h2⟩

/-- C10 witness: the `study` bucket after `process_study` on `S1` extends
its previous (empty) contents. -/
theorem c10_witness : ∃ t, resC10 "study" = emptyRes "study" ++ t :=
  (c10_bucket_append_only wC1 tpC1 instS1 instP1 emptyRes resC10
    emptyRes).1 rfl "study"

/-! Sink lemmas and claim theorems. -/

/-- While strictly fewer documents than the capacity have been buffered, no
flush runs and no file is created. -/
lemma lem_acceptAll_below_cap (filename : String) (cap : Nat) :
    ∀ (docs buf : List String), buf.length + docs.length < cap →
      acceptAll ⟨filename, none, cap, buf⟩ docs =
        .ok ⟨filename, none, cap, buf ++ docs⟩ := by
  intro docs
  induction docs with
  | nil =>
    intro buf _
    simp [acceptAll]
  | cons d rest ih =>
    intro buf h
    have h1 : ¬((buf ++ [d]).length ≥ cap) := by
      simp only [List.length_append, List.length_cons, List.length_nil,
        List.length_cons] at h ⊢
      omega
    have h2 : (buf ++ [d]).length + rest.length < cap := by
      simp only [List.length_append, List.length_cons, List.length_nil,
        List.length_cons] at h ⊢
      omega
    have h3 : buf ++ [d] ++ rest = buf ++ d :: rest := by
      rw [List.append_assoc]
      rfl
    calc acceptAll ⟨filename, none, cap, buf⟩ (d :: rest)
        = acceptAll ⟨filename, none, cap, buf ++ [d]⟩ rest := by
          simp only [acceptAll, DewrangleJSON.call]
          rw [if_neg h1]
      _ = .ok ⟨filename, none, cap, buf ++ [d] ++ rest⟩ := ih _ h2
      _ = .ok ⟨filename, none, cap, buf ++ d :: rest⟩ := by rw [h3]

/-- C3: the claim says the closed output file always parses to all N
accepted documents in order, for every capacity.  The code's `__exit__`
writes the closing bracket without flushing the buffer first, so every
document accepted since the last automatic flush is silently dropped.
With capacity 3 and documents `a b c d`, the closed file holds only
`a b c` and `d` dies in the discarded buffer. -/
theorem sink_c3_drops_unflushed_tail :
    (runSink "out.json" 3 ["a", "b", "c", "d"]).map
        (fun s => (s.file, s.resources)) =
      .ok (some ⟨"[\na,\nb,\nc\n]", true⟩, ["d"]) ∧
    parseArray "[\na,\nb,\nc\n]" = some ["a", "b", "c"] :=
  ⟨rfl, by decide⟩

/-- C6 counterexample: the claim says a second close is always an error-free
no-op.  After a run that created a file (capacity 1, one document), the
sink is in state `sinkClosedCap1`, and a second close raises on writing
the closing bracket to the already-closed handle. -/
theorem sink_c6_second_close_errors :
    runSink "out.json" 1 ["a"] = .ok sinkClosedCap1 ∧
    sinkClosedCap1.exit = .error .closedFile :=
  ⟨rfl, rfl⟩

/-- C6 amended: a second close is an error-free no-op only when no output
file was ever created (no flush ran before the first close); when a file
exists, the first close leaves the closed handle in `self.file`, so the
second close's bracket write raises. -/
theorem sink_c6_close_twice_amended (s s' : DewrangleJSON)
    (h : s.exit = .ok s') :
    (s.file = none → s' = s ∧ s'.exit = .ok s') ∧
    (∀ f, s.file = some f → s'.exit = .error .closedFile) := by
  constructor
  · intro hf
    simp only [DewrangleJSON.exit, hf, Except.ok.injEq] at h
    subst h
    refine ⟨rfl, ?_⟩
    simp only [DewrangleJSON.exit, hf]
  · intro f hf
    simp only [DewrangleJSON.exit, hf] at h
    cases hc : f.closed with
    | true =>
      rw [hc] at h
      simp at h
    | false =>
      rw [hc] at h
      simp only [Bool.false_eq_true, if_false, Except.ok.injEq] at h
      rw [← h]
      rfl

/-- C6 witness: a sink closed before any flush (no file) closes again as a
no-op. -/
theorem sink_c6_witness :
    (⟨"w6.json", none, 3, ["p"] ⟩ : DewrangleJSON) =
        (⟨"w6.json", none, 3, ["p"]⟩ : DewrangleJSON) ∧
      DewrangleJSON.exit ⟨"w6.json", none, 3, ["p"]⟩ =
        .ok ⟨"w6.json", none, 3, ["p"]⟩ :=
  (sink_c6_close_twice_amended ⟨"w6.json", none, 3, ["p"]⟩
    ⟨"w6.json", none, 3, ["p"]⟩ rfl).1 rfl

/-- C7 counterexample: the claim says every `accept` after close is an
error.  `sinkClosedCap2` is the state after a capacity-2 run of two
documents (file created and closed); a further `accept` succeeds, silently
buffering the document. -/
theorem sink_c7_accept_after_close_ok :
    runSink "o2.json" 2 ["a", "b"] = .ok sinkClosedCap2 ∧
    sinkClosedCap2.call "c" =
      .ok ⟨"o2.json", some ⟨"[\na,\nb\n]", true⟩, 2, ["c"]⟩ :=
  ⟨rfl, rfl⟩

/-- C7 amended: after a close that closed a file, `accept` errors exactly
when it brings the buffer up to the capacity — the automatic flush then
writes the separating comma to the closed handle — and otherwise it
silently buffers the document without error. -/
theorem sink_c7_accept_after_close_amended (s : DewrangleJSON)
    (f : FileState) (d : String) (hf : s.file = some f)
    (hc : f.closed = true) :
    (s.resources.length + 1 < s.buffersize →
      s.call d =
        .ok ⟨s.filename, s.file, s.buffersize, s.resources ++ [d]⟩) ∧
    (s.buffersize ≤ s.resources.length + 1 →
      s.call d = .error .closedFile) := by
  constructor
  · intro hlt
    have h1 : ¬((s.resources ++ [d]).length ≥ s.buffersize) := by
      simp only [List.length_append, List.length_cons, List.length_nil]
      omega
    simp only [DewrangleJSON.call]
    rw [if_neg h1]
  · intro hge
    have h1 : (s.resources ++ [d]).length ≥ s.buffersize := by
      simp only [List.length_append, List.length_cons, List.length_nil]
      omega
    have h2 : (s.resources ++ [d]).length > 0 := by
      simp [List.length_append]
    simp only [DewrangleJSON.call]
    rw [if_pos h1]
    simp only [DewrangleJSON.dumpBufferToFile, hf]
    rw [if_pos h2, hc]
    rfl

/-- C7 witness: an accept below capacity after the close of
`sinkClosedCap2` silently buffers. -/
theorem sink_c7_witness :
    sinkClosedCap2.call "c" =
      .ok ⟨sinkClosedCap2.filename, sinkClosedCap2.file,
           sinkClosedCap2.buffersize, sinkClosedCap2.resources ++ ["c"]⟩ :=
  (sink_c7_accept_after_close_amended sinkClosedCap2 ⟨"[\na,\nb\n]", true⟩
    "c" rfl rfl).1 (by decide)

/-- C8: a flush with a non-empty buffer writes the comma-joined buffered
documents, prefixed by the separating comma exactly when this is not the
first flush since opening (a file handle already exists, the first flush
instead creating the file and writing the opening bracket), and clears the
buffer either way; and a freshly opened sink has no backing file. -/
theorem sink_c8_flush_spec (s : DewrangleJSON) (h : s.resources ≠ []) :
    (s.file = none →
      s.dumpBufferToFile =
        .ok ⟨s.filename, some ⟨"[\n" ++ joinComma s.resources, false⟩,
             s.buffersize, []⟩) ∧
    (∀ f, s.file = some f → f.closed = false →
      s.dumpBufferToFile =
        .ok ⟨s.filename,
             some ⟨f.contents ++ ",\n" ++ joinComma s.resources, false⟩,
             s.buffersize, []⟩) ∧
    (∀ filename cap, ((DewrangleJSON.init filename cap).enter).file = none) := by
  have hlen : s.resources.length > 0 := List.length_pos.mpr h
  refine ⟨?_, ?_, fun _ _ => rfl⟩
  · intro hf
    simp only [DewrangleJSON.dumpBufferToFile, hf]
    rw [if_pos hlen]
  · intro f hf hc
    simp only [DewrangleJSON.dumpBufferToFile, hf]
    rw [if_pos hlen, hc]
    rfl

/-- C8 witness: a first flush (no file) and a subsequent flush (open file)
of a one-document buffer. -/
theorem sink_c8_witness :
    ((⟨"w8.json", none, 2, ["x"]⟩ : DewrangleJSON).dumpBufferToFile =
      .ok ⟨"w8.json", some ⟨"[\n" ++ joinComma ["x"], false⟩, 2, []⟩) ∧
    ((⟨"w8.json", some ⟨"[\nx", false⟩, 2, ["y"]⟩ :
        DewrangleJSON).dumpBufferToFile =
      .ok ⟨"w8.json", some ⟨"[\nx" ++ ",\n" ++ joinComma ["y"], false⟩,
           2, []⟩) :=
  ⟨(sink_c8_flush_spec ⟨"w8.json", none, 2, ["x"]⟩ (by decide)).1 rfl,
   (sink_c8_flush_spec ⟨"w8.json", some ⟨"[\nx", false⟩, 2, ["y"]⟩
     (by decide)).2.1 ⟨"[\nx", false⟩ rfl rfl⟩

/-- C9: when fewer documents than the capacity are accepted between open
and close, no automatic flush ever runs, the close finds no file handle
and does nothing: no output file is created, nothing is written, and the
accepted documents are discarded with the buffer. -/
theorem sink_c9_below_capacity_no_file
    (filename : String) (cap : Nat) (docs : List String)
    (h : docs.length < cap) :
    runSink filename cap docs = .ok ⟨filename, none, cap, docs⟩ := by
  have hb : ([] : List String).length + docs.length < cap := by simpa using h
  simp only [runSink, DewrangleJSON.enter, DewrangleJSON.init,
    lem_acceptAll_below_cap filename cap docs [] hb, List.nil_append]
  rfl

/-- C9 witness: one document under capacity 3 — the run ends with no file
and the document still in the (discarded) buffer. -/
theorem sink_c9_witness :
    runSink "out.json" 3 ["a"] = .ok ⟨"out.json", none, 3, ["a"]⟩ :=
  sink_c9_below_capacity_no_file "out.json" 3 ["a"] (by decide)

end Piper
